import Mathlib

/-!
Verification of the ShowSnap movie-ticket backend.

This file gives a shallow embedding, in Lean, of the backend's movie
controllers (`backend/controllers/movieController.js`, both the public and
the admin handler set), the TMDB controller
(`backend/controllers/tmdbController.js`) and the seeding script
(`backend/seedMovies.js`), and proves properties of the embedded code.

Modelling conventions:
* instants are milliseconds since the Unix epoch (`Int`), with the server
  clock taken to run in UTC;
* JavaScript numbers reaching the handlers from query strings are modelled
  by `JsNum` (an integer, NaN, or a signed infinity); string-to-number
  parsing (`Number`, `parseFloat`, `Date.parse`) happens before the
  embedded handler and its outcome is carried in the request record;
* MongoDB collections are lists of documents; a database failure is
  injected through an explicit flag and takes the handler's `catch` path;
* `Math.random()`-driven choices are passed in as explicit parameters
  ranging over every outcome the JavaScript expression can produce.
-/

namespace ShowSnap

/-- JavaScript number values relevant to the embedded handlers: an integer,
NaN, or a signed infinity. A query-string value that `Number(...)` cannot
parse becomes `nan`. -/
inductive JsNum where
  | nan : JsNum
  | posInf : JsNum
  | negInf : JsNum
  | int : Int → JsNum
deriving DecidableEq, Repr

/-- Semantics of JavaScript `Math.min(a, b)`: NaN-propagating minimum. -/
def jsMin : JsNum → JsNum → JsNum
  | .nan, _ => .nan
  | _, .nan => .nan
  | .negInf, _ => .negInf
  | _, .negInf => .negInf
  | .posInf, b => b
  | a, .posInf => a
  | .int a, .int b => .int (min a b)

/-- Semantics of JavaScript `Math.max(a, b)`: NaN-propagating maximum. -/
def jsMax : JsNum → JsNum → JsNum
  | .nan, _ => .nan
  | _, .nan => .nan
  | .posInf, _ => .posInf
  | _, .posInf => .posInf
  | .negInf, b => b
  | a, .negInf => a
  | .int a, .int b => .int (max a b)

/-- Semantics of JavaScript subtraction on the embedded number values. -/
def jsSub : JsNum → JsNum → JsNum
  | .nan, _ => .nan
  | _, .nan => .nan
  | .posInf, .posInf => .nan
  | .posInf, _ => .posInf
  | .negInf, .negInf => .nan
  | .negInf, _ => .negInf
  | .int _, .posInf => .negInf
  | .int _, .negInf => .posInf
  | .int a, .int b => .int (a - b)

/-- Semantics of JavaScript multiplication on the embedded number values. -/
def jsMul : JsNum → JsNum → JsNum
  | .nan, _ => .nan
  | _, .nan => .nan
  | .posInf, .posInf => .posInf
  | .posInf, .negInf => .negInf
  | .negInf, .posInf => .negInf
  | .negInf, .negInf => .posInf
  | .posInf, .int b => if b = 0 then .nan else if 0 < b then .posInf else .negInf
  | .int a, .posInf => if a = 0 then .nan else if 0 < a then .posInf else .negInf
  | .negInf, .int b => if b = 0 then .nan else if 0 < b then .negInf else .posInf
  | .int a, .negInf => if a = 0 then .nan else if 0 < a then .negInf else .posInf
  | .int a, .int b => .int (a * b)

/-- Ceiling of the exact rational quotient `t / s` for integers, `s ≠ 0`. -/
def ceilDivInt (t s : Int) : Int := -(Int.fdiv (-t) s)

/-- Semantics of `Math.ceil(t / s)` for a non-negative integer numerator
`t` and an embedded-number denominator `s` (as in the handler's
`Math.ceil(total / safeLimit)`): division by zero gives an infinity (or NaN
for `0 / 0`), division by an infinity gives zero, NaN propagates. -/
def jsCeilDiv (t : Nat) : JsNum → JsNum
  | .nan => .nan
  | .posInf => .int 0
  | .negInf => .int 0
  | .int s =>
      if s = 0 then (if t = 0 then .nan else .posInf)
      else .int (ceilDivInt (t : Int) s)

/-- The characters of a string, lowercased. -/
def lowerChars (s : String) : List Char := s.data.map Char.toLower

/-- Case-insensitive substring test: the embedding of the controllers'
`$regex` filters with option `i`. The patterns this code base feeds to
`$regex` are plain text, so the regex matches exactly when the pattern
occurs as a substring, ignoring case. -/
def containsCI (haystack pat : String) : Bool :=
  ((lowerChars haystack).tails).any (fun t => (lowerChars pat).isPrefixOf t)

/-- Embedding of JavaScript `s.trim()`: strip whitespace from both ends. -/
def trimStr (s : String) : String :=
  String.mk (((s.data.dropWhile Char.isWhitespace).reverse.dropWhile
    Char.isWhitespace).reverse)

/-- Embedding of the `s?.trim()` truthiness idiom: `none` when the
parameter is absent or trims to the empty string, otherwise the trimmed
text. -/
def trimmedNonempty : Option String → Option String
  | none => none
  | some s => if trimStr s = "" then none else some (trimStr s)

/-- Milliseconds in one day. -/
def dayMs : Int := 86400000

/-- Embedding of `const today = new Date(); today.setHours(0, 0, 0, 0)`
with the server in UTC: the most recent midnight at or before `now`. -/
def startOfDay (now : Int) : Int := dayMs * Int.fdiv now dayMs

/-- One showtime document. The seed script and the admin `createMovie`
handler push documents of this shape into theaters and embed the same
lists into movies. `movie` is the ObjectId (as a string) of the movie the
showtime plays. -/
structure Showtime where
  startTime : Int
  screen : String
  availableSeats : Int
  blockedSeats : List String
  movie : String
deriving DecidableEq, Repr

/-- A theater copy embedded inside a movie document
(`movie.embeddedTheaters`). -/
structure EmbeddedTheater where
  name : String
  location : String
  showtimes : List Showtime
deriving DecidableEq, Repr

/-- A movie document. Ratings are kept at integer granularity (no verified
claim depends on fractional ratings). -/
structure Movie where
  id : String
  title : String
  titleEnglish : String
  description : String
  genre : String
  rating : Int
  language : String
  releaseDate : Int
  embeddedTheaters : List EmbeddedTheater
deriving DecidableEq, Repr

/-- A theater document, holding its own denormalized showtime array and the
titles of the movies playing there. -/
structure Theater where
  id : String
  name : String
  location : String
  showtimes : List Showtime
  movieTitles : List String
  status : String
deriving DecidableEq, Repr

/-- Query parameters of GET /api/movies. `none` is an absent parameter.
`page` and `limit` carry the outcome of JavaScript `Number(...)` on the
given string; `minRating` carries the outcome of `parseFloat` guarded by
`isNaN` (`some none` when present but non-numeric); `releasedAfter`
carries the outcome of `Date.parse` (`some none` when unparseable). -/
structure MoviesQuery where
  isUpcoming : Option String
  genre : Option String
  minRating : Option (Option Int)
  language : Option String
  releasedAfter : Option (Option Int)
  sortBy : Option String
  title : Option String
  location : Option String
  page : Option JsNum
  limit : Option JsNum
deriving Repr

/-- One clause of the dynamic MongoDB filter built by `getMovies`. -/
inductive MovieFilter where
  | releaseGt : Int → MovieFilter
  | releaseLe : Int → MovieFilter
  | releaseGe : Int → MovieFilter
  | locationRe : String → MovieFilter
  | genreRe : String → MovieFilter
  | ratingGe : Int → MovieFilter
  | languageRe : String → MovieFilter
deriving DecidableEq, Repr

/-- Whether one movie document matches one filter clause. `locationRe`
targets the array path `embeddedTheaters.location`: in MongoDB a filter on
an array path matches when some array element matches. -/
def matchesFilter (f : MovieFilter) (m : Movie) : Bool :=
  match f with
  | .releaseGt t => t < m.releaseDate
  | .releaseLe t => m.releaseDate ≤ t
  | .releaseGe t => t ≤ m.releaseDate
  | .locationRe p => m.embeddedTheaters.any (fun e => containsCI e.location p)
  | .genreRe p => containsCI m.genre p
  | .ratingGe r => r ≤ m.rating
  | .languageRe p => containsCI m.language p

/-- The filter list `getMovies` builds from the optional query parameters,
in the push order of the source (release-date filters, location, genre,
rating, language). -/
def buildFilters (q : MoviesQuery) (today : Int) : List MovieFilter :=
  (if q.isUpcoming = some "true" then [MovieFilter.releaseGt today] else []) ++
  (if q.isUpcoming = some "false" then [MovieFilter.releaseLe today] else []) ++
  (match q.releasedAfter with
    | some (some t) => [MovieFilter.releaseGe t]
    | _ => []) ++
  (match trimmedNonempty q.location with
    | some p => [MovieFilter.locationRe p]
    | none => []) ++
  (match trimmedNonempty q.genre with
    | some p => [MovieFilter.genreRe p]
    | none => []) ++
  (match q.minRating with
    | some (some r) => [MovieFilter.ratingGe r]
    | _ => []) ++
  (match trimmedNonempty q.language with
    | some p => [MovieFilter.languageRe p]
    | none => [])

/-- Semantics of the `$match: { $and: filters }` stage (and of
`countDocuments` on the same filter object): keep the documents matching
every clause. With no clause every document matches, which also covers the
source's skipping of the `$match` stage for an empty filter list. -/
def applyFilters (fs : List MovieFilter) (db : List Movie) : List Movie :=
  db.filter (fun m => fs.all (fun f => matchesFilter f m))

/-- Model of the Atlas `$search` text stage over the paths `titleEnglish`,
`title`, `description`. Atlas relevance and fuzzy matching live in an
external service; the stage is modelled as case-insensitive substring
match on the three paths. No claim verified here depends on which
documents the search matches, only on how the result set is paginated and
counted. -/
def searchMatches (q : String) (m : Movie) : Bool :=
  containsCI m.titleEnglish q || containsCI m.title q || containsCI m.description q

/-- Semantics of the `$sort` stage for the two sort keys `getMovies` can
send (`rating: -1` or `releaseDate: -1`): a stable descending sort. -/
def applySort (sortBy : Option String) (l : List Movie) : List Movie :=
  if sortBy = some "rating" then
    List.insertionSort (fun a b => b.rating ≤ a.rating) l
  else if sortBy = some "releaseDate" then
    List.insertionSort (fun a b => b.releaseDate ≤ a.releaseDate) l
  else l

/-- MongoDB `$skip` stage: accepts a non-negative integer and makes the
whole aggregate call reject on a negative, fractional, NaN or infinite
argument. -/
def aggSkip (n : JsNum) (l : List Movie) : Except String (List Movie) :=
  match n with
  | .int k => if 0 ≤ k then .ok (l.drop k.toNat) else .error "skip must be non-negative"
  | _ => .error "skip must be an integer"

/-- MongoDB `$limit` stage: accepts a positive integer and makes the whole
aggregate call reject otherwise. -/
def aggLimit (n : JsNum) (l : List Movie) : Except String (List Movie) :=
  match n with
  | .int k => if 0 < k then .ok (l.take k.toNat) else .error "limit must be positive"
  | _ => .error "limit must be an integer"

/-- The JSON body GET /api/movies sends on success. -/
structure MoviesPage where
  count : Nat
  total : Nat
  page : JsNum
  totalPages : JsNum
  movies : List Movie
deriving DecidableEq, Repr

/-- Result of an HTTP handler: a success payload with its status code, or
an error status with the JSON error message. -/
inductive HResult (α : Type) where
  | ok : Nat → α → HResult α
  | err : Nat → String → HResult α
deriving DecidableEq, Repr

/-- HTTP status code of a handler result. -/
def HResult.status {α : Type} : HResult α → Nat
  | .ok s _ => s
  | .err s _ => s

/-- The movie list of a successful GET /api/movies response (empty for an
error response). -/
def HResult.moviesOf : HResult MoviesPage → List Movie
  | .ok _ p => p.movies
  | .err _ _ => []

/-- The movie list of a successful admin get-all-movies response (empty
for an error response). -/
def HResult.listOf : HResult (List Movie) → List Movie
  | .ok _ l => l
  | .err _ _ => []

/-- The `limit` value entering `Math.min`: the query parameter through
`Number(...)`, or the default 20. -/
def effLimit (q : MoviesQuery) : JsNum :=
  match q.limit with | some v => v | none => .int 20

/-- The `page` value entering `Math.max`: the query parameter through
`Number(...)`, or the default 1. -/
def effPage (q : MoviesQuery) : JsNum :=
  match q.page with | some v => v | none => .int 1

/-- The handler's `safeLimit = Math.min(Number(limit), 100)`. -/
def safeLimitOf (q : MoviesQuery) : JsNum := jsMin (effLimit q) (.int 100)

/-- The handler's `safePage = Math.max(Number(page), 1)`. -/
def safePageOf (q : MoviesQuery) : JsNum := jsMax (effPage q) (.int 1)

/-- Embedding of the public GET /api/movies handler. `now` is the server
clock at the request; `dbErr` injects a database failure, which takes the
handler's `catch` path, as does a rejected aggregate call. -/
def getMovies (q : MoviesQuery) (now : Int) (dbErr : Bool) (db : List Movie) :
    HResult MoviesPage :=
  if dbErr then .err 500 "Server error while fetching movies" else
  let today := startOfDay now
  let filters := buildFilters q today
  let safeLimit := safeLimitOf q
  let safePage := safePageOf q
  let searched := match trimmedNonempty q.title with
    | some t => db.filter (fun m => searchMatches t m)
    | none => db
  let sorted := applySort q.sortBy (applyFilters filters searched)
  match aggSkip (jsMul (jsSub safePage (.int 1)) safeLimit) sorted with
  | .error _ => .err 500 "Server error while fetching movies"
  | .ok afterSkip =>
    match aggLimit safeLimit afterSkip with
    | .error _ => .err 500 "Server error while fetching movies"
    | .ok movies =>
      let total := match trimmedNonempty q.title with
        | some _ => movies.length
        | none => (applyFilters filters db).length
      .ok 200 { count := movies.length, total := total, page := safePage,
                totalPages := jsCeilDiv total safeLimit, movies := movies }

/-- The release-date filter of the admin get-all-movies handler. It is
built from `new Date()` — the current instant — not from the start of the
current day. -/
def adminUpcomingFilter (isUpcoming : Option String) (now : Int) (m : Movie) : Bool :=
  if isUpcoming = some "true" then now < m.releaseDate
  else if isUpcoming = some "false" then m.releaseDate ≤ now
  else true

/-- Embedding of the admin get-all-movies handler: filter by `isUpcoming`
against the current instant and sort by release date descending. -/
def getAllMovies (isUpcoming : Option String) (now : Int) (dbErr : Bool)
    (db : List Movie) : HResult (List Movie) :=
  if dbErr then .err 500 "Server error while fetching movies" else
  .ok 200 (List.insertionSort (fun a b => b.releaseDate ≤ a.releaseDate)
    (db.filter (adminUpcomingFilter isUpcoming now)))

/-! Concrete fixtures used by witnesses and counterexamples. -/

/-- A GET /api/movies request with every optional parameter absent. -/
def emptyQuery : MoviesQuery :=
  { isUpcoming := none, genre := none, minRating := none, language := none,
    releasedAfter := none, sortBy := none, title := none, location := none,
    page := none, limit := none }

/-- A minimal concrete movie document. -/
def mkMovie (id title : String) (releaseDate : Int) : Movie :=
  { id := id, title := title, titleEnglish := title, description := "d",
    genre := "Drama", rating := 7, language := "en",
    releaseDate := releaseDate, embeddedTheaters := [] }

/-- The documents matching the dynamic filter object of a request — what
`countDocuments` counts and what the `$match` stage keeps. -/
def matchedMovies (q : MoviesQuery) (now : Int) (db : List Movie) : List Movie :=
  applyFilters (buildFilters q (startOfDay now)) db

/-- The page a request receives: the sorted matching documents after
skipping `(pg - 1) * S` of them and taking at most `S`. -/
def pageSlice (q : MoviesQuery) (now : Int) (db : List Movie) (pg S : Int) :
    List Movie :=
  ((applySort q.sortBy (matchedMovies q now db)).drop ((pg - 1) * S).toNat).take
    S.toNat

/-- Core evaluation of `getMovies` for a title-less request with numeric
`page` and positive numeric `limit`. -/
lemma getMovies_ok_shape (q : MoviesQuery) (now : Int) (db : List Movie)
    (L P : Int) (hL : effLimit q = .int L) (hP : effPage q = .int P)
    (hL1 : 1 ≤ L) (hT : trimmedNonempty q.title = none) :
    getMovies q now false db = .ok 200
      { count := (pageSlice q now db (max P 1) (min L 100)).length,
        total := (matchedMovies q now db).length,
        page := .int (max P 1),
        totalPages := .int (ceilDivInt ((matchedMovies q now db).length) (min L 100)),
        movies := pageSlice q now db (max P 1) (min L 100) } := by
  have hS : safeLimitOf q = .int (min L 100) := by rw [safeLimitOf, hL]; rfl
  have hPg : safePageOf q = .int (max P 1) := by rw [safePageOf, hP]; rfl
  have hSpos : (0 : Int) < min L 100 := by omega
  have hge : (0 : Int) ≤ (max P 1 - 1) * min L 100 :=
    mul_nonneg (by omega) (by omega)
  have hceil : jsCeilDiv ((applyFilters (buildFilters q (startOfDay now)) db).length)
      (.int (min L 100)) =
      .int (ceilDivInt ((applyFilters (buildFilters q (startOfDay now)) db).length)
        (min L 100)) := by
    simp only [jsCeilDiv]
    rw [if_neg (by omega)]
  simp only [getMovies, hT, hS, hPg, Bool.false_eq_true, if_false]
  rw [show jsMul (jsSub (JsNum.int (max P 1)) (JsNum.int 1)) (JsNum.int (min L 100))
      = JsNum.int ((max P 1 - 1) * min L 100) from rfl]
  simp only [aggSkip, aggLimit, if_pos hge, if_pos hSpos, pageSlice, matchedMovies, hceil]

/-- C1 (amended): for a request without a title search, with a numeric page
parameter and a positive numeric limit parameter, `getMovies` uses page
size `min(Number(limit), 100)` and page number `max(Number(page), 1)`,
skips `(page - 1) * size` documents, returns at most `size` movies, and
reports `total` equal to the number of movies matching the active filters
across all pages, with `totalPages = ceil(total / size)`. (When a title is
given, `total` is instead the length of the returned page — see the
counterexample — and a NaN or non-positive pagination value makes the
aggregate reject, yielding a 500 response.) -/
theorem getMovies_pagination (q : MoviesQuery) (now : Int) (db : List Movie)
    (L P : Int) (hL : effLimit q = .int L) (hP : effPage q = .int P)
    (hL1 : 1 ≤ L) (hT : trimmedNonempty q.title = none) :
    getMovies q now false db = .ok 200
      { count := (pageSlice q now db (max P 1) (min L 100)).length,
        total := (matchedMovies q now db).length,
        page := .int (max P 1),
        totalPages := .int (ceilDivInt ((matchedMovies q now db).length) (min L 100)),
        movies := pageSlice q now db (max P 1) (min L 100) } ∧
    (pageSlice q now db (max P 1) (min L 100)).length ≤ (min L 100).toNat := by
  refine ⟨getMovies_ok_shape q now db L P hL hP hL1 hT, ?_⟩
  simp only [pageSlice]
  exact List.length_take_le _ _

/-- C1 witness: a concrete three-movie database paged with limit 2. -/
theorem getMovies_pagination_witness :
    getMovies { emptyQuery with limit := some (.int 2) } 0 false
      [mkMovie "a" "A" 100, mkMovie "b" "B" 200, mkMovie "c" "C" 300] =
    .ok 200 { count := 2, total := 3, page := .int 1, totalPages := .int 2,
              movies := [mkMovie "a" "A" 100, mkMovie "b" "B" 200] } := by
  have h := getMovies_pagination { emptyQuery with limit := some (.int 2) } 0
    [mkMovie "a" "A" 100, mkMovie "b" "B" 200, mkMovie "c" "C" 300] 2 1 rfl rfl
    (by decide) rfl
  exact h.1.trans (by decide)

/-- C1 counterexample: with an active title search the handler reports
`total` as the length of the returned page (here 1), not the number of
movies matching the active filters across all pages (here 2: both movies
match the empty filter list, and both match the search). -/
theorem getMovies_title_total_counterexample :
    getMovies { emptyQuery with title := some "a", limit := some (.int 1) } 0 false
      [mkMovie "m1" "Alpha" 0, mkMovie "m2" "Gamma" 0] =
    .ok 200 { count := 1, total := 1, page := .int 1, totalPages := .int 1,
              movies := [mkMovie "m1" "Alpha" 0] } ∧
    (applyFilters
      (buildFilters { emptyQuery with title := some "a", limit := some (.int 1) }
        (startOfDay 0))
      [mkMovie "m1" "Alpha" 0, mkMovie "m2" "Gamma" 0]).length = 2 ∧
    ([mkMovie "m1" "Alpha" 0, mkMovie "m2" "Gamma" 0].filter
      (fun m => searchMatches "a" m)).length = 2 := by decide

lemma jsMul_nan_right (x : JsNum) : jsMul x .nan = .nan := by cases x <;> rfl

/-- If the computed `$skip` argument makes the stage reject, `getMovies`
answers 500. -/
lemma getMovies_skip_err (q : MoviesQuery) (now : Int) (db : List Movie) (e : String)
    (h : ∀ l : List Movie,
      aggSkip (jsMul (jsSub (safePageOf q) (.int 1)) (safeLimitOf q)) l = .error e) :
    getMovies q now false db = .err 500 "Server error while fetching movies" := by
  simp only [getMovies, Bool.false_eq_true, if_false]
  rw [h]

/-- If `$skip` gets a non-negative integer but `$limit` rejects,
`getMovies` answers 500. -/
lemma getMovies_limit_err (q : MoviesQuery) (now : Int) (db : List Movie)
    (k : Int) (hk : jsMul (jsSub (safePageOf q) (.int 1)) (safeLimitOf q) = .int k)
    (hk0 : 0 ≤ k) (e : String)
    (h : ∀ l : List Movie, aggLimit (safeLimitOf q) l = .error e) :
    getMovies q now false db = .err 500 "Server error while fetching movies" := by
  simp only [getMovies, Bool.false_eq_true, if_false, hk]
  simp only [aggSkip, if_pos hk0]
  rw [h]

/-- C10 (amended): `getMovies` clamps a numeric page from below at 1, but a
NaN page stays NaN (`Math.max(NaN, 1)` is NaN); the limit is only clamped
from above at 100, so a zero, negative or NaN limit passes through as the
page size into the `$skip`/`$limit` stages, where the aggregate rejects and
the handler answers 500. -/
theorem getMovies_limit_unvalidated (q : MoviesQuery) (p L : Int) :
    (effPage q = .int p → safePageOf q = .int (max p 1) ∧ 1 ≤ max p 1) ∧
    (effLimit q = .int L → safeLimitOf q = .int (min L 100) ∧
      (L ≤ 0 → safeLimitOf q = .int L)) ∧
    (effLimit q = .nan → safeLimitOf q = .nan) ∧
    (∀ (now : Int) (db : List Movie),
      ((effLimit q = .int L ∧ L ≤ 0) ∨ effLimit q = .nan) →
      getMovies q now false db = .err 500 "Server error while fetching movies") := by
  refine ⟨?_, ?_, ?_, ?_⟩
  · intro h
    rw [safePageOf, h]
    exact ⟨rfl, by omega⟩
  · intro h
    rw [safeLimitOf, h]
    refine ⟨rfl, fun hle => ?_⟩
    show JsNum.int (min L 100) = JsNum.int L
    rw [min_eq_left (by omega : L ≤ (100 : Int))]
  · intro h
    rw [safeLimitOf, h]
    rfl
  · intro now db hbad
    have hsp : safePageOf q = .nan ∨ safePageOf q = .posInf ∨
        ∃ k : Int, safePageOf q = .int k ∧ 1 ≤ k := by
      rw [safePageOf]
      cases effPage q with
      | nan => exact Or.inl rfl
      | posInf => exact Or.inr (Or.inl rfl)
      | negInf => exact Or.inr (Or.inr ⟨1, rfl, le_refl 1⟩)
      | int a => exact Or.inr (Or.inr ⟨max a 1, rfl, by omega⟩)
    rcases hbad with ⟨hL, hL0⟩ | hnan
    · have hlim : safeLimitOf q = .int L := by
        rw [safeLimitOf, hL]
        show JsNum.int (min L 100) = JsNum.int L
        rw [min_eq_left (by omega : L ≤ (100 : Int))]
      rcases hsp with hsp | hsp | ⟨k, hsp, hk1⟩
      · refine getMovies_skip_err q now db "skip must be an integer" ?_
        intro l
        rw [hsp, hlim]
        rfl
      · by_cases h0 : L = 0
        · refine getMovies_skip_err q now db "skip must be an integer" ?_
          intro l
          rw [hsp, hlim, h0]
          rfl
        · refine getMovies_skip_err q now db "skip must be an integer" ?_
          intro l
          rw [hsp, hlim]
          show aggSkip (jsMul JsNum.posInf (JsNum.int L)) l = _
          rw [show jsMul JsNum.posInf (JsNum.int L) =
            if L = 0 then JsNum.nan else if 0 < L then JsNum.posInf else JsNum.negInf
            from rfl]
          rw [if_neg h0, if_neg (by omega)]
          rfl
      · have hmul : jsMul (jsSub (JsNum.int k) (JsNum.int 1)) (JsNum.int L) =
            .int ((k - 1) * L) := rfl
        have hple : (k - 1) * L ≤ 0 :=
          mul_nonpos_iff.mpr (Or.inl ⟨by omega, hL0⟩)
        by_cases hz : (k - 1) * L = 0
        · refine getMovies_limit_err q now db ((k - 1) * L) ?_ (by omega)
            "limit must be positive" ?_
          · rw [hsp, hlim]
            exact hmul
          · intro l
            rw [hlim]
            simp only [aggLimit]
            rw [if_neg (by omega : ¬ (0 : Int) < L)]
        · refine getMovies_skip_err q now db "skip must be non-negative" ?_
          intro l
          rw [hsp, hlim, hmul]
          simp only [aggSkip]
          rw [if_neg (fun hcon => hz (le_antisymm hple hcon))]
    · refine getMovies_skip_err q now db "skip must be an integer" ?_
      intro l
      have hlim : safeLimitOf q = .nan := by rw [safeLimitOf, hnan]; rfl
      rw [hlim, jsMul_nan_right]
      rfl

/-- C10 witness: page 0 is clamped to 1 while limit 0 reaches the
`$limit` stage and produces a 500 response. -/
theorem getMovies_limit_unvalidated_witness :
    safePageOf { emptyQuery with page := some (.int 0), limit := some (.int 0) } = .int 1 ∧
    safeLimitOf { emptyQuery with page := some (.int 0), limit := some (.int 0) } = .int 0 ∧
    getMovies { emptyQuery with page := some (.int 0), limit := some (.int 0) } 0 false [] =
      .err 500 "Server error while fetching movies" := by
  have h := getMovies_limit_unvalidated
    { emptyQuery with page := some (.int 0), limit := some (.int 0) } 0 0
  exact ⟨(h.1 rfl).1.trans (by decide), (h.2.1 rfl).2 (le_refl 0),
    h.2.2.2 0 [] (Or.inl ⟨rfl, le_refl 0⟩)⟩

/-- C10 counterexample: with a non-numeric page parameter the effective
page number is NaN — not a number at least 1 — and the request fails with
a 500 response. -/
theorem getMovies_nan_page_counterexample :
    safePageOf { emptyQuery with page := some .nan } = .nan ∧
    getMovies { emptyQuery with page := some .nan } 0 false [] =
      .err 500 "Server error while fetching movies" := by decide

/-- Matching a single-clause filter list. -/
lemma applyFilters_single (f : MovieFilter) (db : List Movie) (m : Movie) :
    m ∈ applyFilters [f] db ↔ m ∈ db ∧ matchesFilter f m = true := by
  simp [applyFilters, List.mem_filter]

/-- The GET /api/movies request sending only `isUpcoming = v` and a limit
of 100. -/
def upcomingQuery (v : String) : MoviesQuery :=
  { emptyQuery with isUpcoming := some v, limit := some (.int 100) }

/-- For an unsorted request over a database of at most 100 documents, the
first page with limit 100 is the whole matching set. -/
lemma pageSlice_all (q : MoviesQuery) (now : Int) (db : List Movie)
    (hsort : q.sortBy = none) (hdb : db.length ≤ 100) :
    pageSlice q now db (max 1 1) (min 100 100) = matchedMovies q now db := by
  rw [pageSlice]
  rw [show ((max (1 : Int) 1 - 1) * min 100 100).toNat = 0 from by decide]
  rw [List.drop_zero]
  rw [show ((min (100 : Int) 100).toNat) = 100 from by decide]
  rw [show applySort q.sortBy (matchedMovies q now db) = matchedMovies q now db from by
    simp [applySort, hsort]]
  exact List.take_of_length_le (le_trans (List.length_filter_le _ db) hdb)

/-- C3 (amended): GET /api/movies filters `isUpcoming` against the start
(midnight) of the current day — `'true'` selects a movie exactly when its
releaseDate is strictly after midnight, `'false'` exactly when it is at or
before midnight, and every movie satisfies exactly one of the two. The
admin get-all-movies handler applies the same shape of filter but against
the current instant (`new Date()`), not midnight, so the two endpoints'
cutoffs differ for a movie released between midnight and the request
instant (see the counterexample). -/
theorem upcoming_filter_cutoffs (now : Int) (db : List Movie) (hdb : db.length ≤ 100) :
    (∀ m : Movie,
      m ∈ (getMovies (upcomingQuery "true") now false db).moviesOf ↔
        m ∈ db ∧ startOfDay now < m.releaseDate) ∧
    (∀ m : Movie,
      m ∈ (getMovies (upcomingQuery "false") now false db).moviesOf ↔
        m ∈ db ∧ m.releaseDate ≤ startOfDay now) ∧
    (∀ m : Movie, (startOfDay now < m.releaseDate ↔ ¬ m.releaseDate ≤ startOfDay now)) ∧
    (∀ m : Movie,
      m ∈ (getAllMovies (some "true") now false db).listOf ↔
        m ∈ db ∧ now < m.releaseDate) ∧
    (∀ m : Movie,
      m ∈ (getAllMovies (some "false") now false db).listOf ↔
        m ∈ db ∧ m.releaseDate ≤ now) ∧
    (∀ m : Movie, (now < m.releaseDate ↔ ¬ m.releaseDate ≤ now)) := by
  have hget : ∀ (v : String) (f : MovieFilter),
      buildFilters (upcomingQuery v) (startOfDay now) = [f] →
      ∀ m : Movie,
        m ∈ (getMovies (upcomingQuery v) now false db).moviesOf ↔
          m ∈ db ∧ matchesFilter f m = true := by
    intro v f hbf m
    have h := getMovies_ok_shape (upcomingQuery v) now db 100 1 rfl rfl (by omega) rfl
    rw [h]
    simp only [HResult.moviesOf]
    rw [pageSlice_all (upcomingQuery v) now db rfl hdb, matchedMovies, hbf,
      applyFilters_single]
  refine ⟨?_, ?_, fun m => by omega, ?_, ?_, fun m => by omega⟩
  · intro m
    rw [hget "true" (.releaseGt (startOfDay now)) rfl m]
    simp [matchesFilter]
  · intro m
    rw [hget "false" (.releaseLe (startOfDay now)) rfl m]
    simp [matchesFilter]
  · intro m
    simp only [getAllMovies, Bool.false_eq_true, if_false, HResult.listOf]
    rw [List.mem_insertionSort, List.mem_filter]
    rw [show adminUpcomingFilter (some "true") now m = decide (now < m.releaseDate) from rfl]
    simp
  · intro m
    simp only [getAllMovies, Bool.false_eq_true, if_false, HResult.listOf]
    rw [List.mem_insertionSort, List.mem_filter]
    rw [show adminUpcomingFilter (some "false") now m = decide (m.releaseDate ≤ now) from rfl]
    simp

/-- C3 witness: a single movie released at 08:00 of the current (UTC) day,
requested at 12:00, is selected by GET /api/movies with
`isUpcoming = 'true'`. -/
theorem upcoming_filter_cutoffs_witness :
    mkMovie "m8" "M" 28800000 ∈
      (getMovies (upcomingQuery "true")
        43200000 false [mkMovie "m8" "M" 28800000]).moviesOf ↔
    mkMovie "m8" "M" 28800000 ∈ [mkMovie "m8" "M" 28800000] ∧
      startOfDay 43200000 < (mkMovie "m8" "M" 28800000).releaseDate :=
  (upcoming_filter_cutoffs 43200000 [mkMovie "m8" "M" 28800000] (by decide)).1
    (mkMovie "m8" "M" 28800000)

/-- C3 counterexample: the two movie-listing endpoints do not apply the
same cutoff. A movie released at 08:00 of the current day, requested at
12:00 with `isUpcoming = 'true'`, is returned by GET /api/movies (cutoff:
midnight) but not by the admin get-all-movies handler (cutoff: the request
instant). -/
theorem upcoming_cutoff_counterexample :
    mkMovie "m8" "M" 28800000 ∈
      (getMovies { emptyQuery with isUpcoming := some "true" } 43200000 false
        [mkMovie "m8" "M" 28800000]).moviesOf ∧
    mkMovie "m8" "M" 28800000 ∉
      (getAllMovies (some "true") 43200000 false [mkMovie "m8" "M" 28800000]).listOf := by
  decide

/-! Database state: the two collections the movie controllers touch. -/

/-- The movie and theater collections. -/
structure DB where
  movies : List Movie
  theaters : List Theater
deriving DecidableEq, Repr

/-- The update object of the admin updateMovie handler (`req.body`):
every field optional; `findByIdAndUpdate` overwrites exactly the fields
present. -/
structure MovieUpdate where
  title : Option String
  genre : Option String
  rating : Option Int
  language : Option String
  releaseDate : Option Int
  embeddedTheaters : Option (List EmbeddedTheater)
deriving DecidableEq, Repr

/-- Whether `Object.keys(updates).length === 0`. -/
def MovieUpdate.isEmpty (u : MovieUpdate) : Bool :=
  u.title = none && u.genre = none && u.rating = none && u.language = none &&
  u.releaseDate = none && u.embeddedTheaters = none

/-- Apply an update object to a movie document, field by field. -/
def applyUpdate (u : MovieUpdate) (m : Movie) : Movie :=
  { m with
    title := u.title.getD m.title,
    genre := u.genre.getD m.genre,
    rating := u.rating.getD m.rating,
    language := u.language.getD m.language,
    releaseDate := u.releaseDate.getD m.releaseDate,
    embeddedTheaters := u.embeddedTheaters.getD m.embeddedTheaters }

/-- Embedding of the admin updateMovie handler: reject an empty update
object with 400, answer 404 when no movie has the id, otherwise rewrite
the one Movie document (and nothing else) and answer 200 with the updated
document. -/
def updateMovie (db : DB) (movieId : String) (u : MovieUpdate) :
    HResult Movie × DB :=
  if u.isEmpty then (.err 400 "No update data provided", db)
  else
    match db.movies.find? (fun m => m.id = movieId) with
    | none => (.err 404 "Movie not found", db)
    | some m =>
        (.ok 200 (applyUpdate u m),
         { db with movies :=
            db.movies.map (fun x => if x.id = movieId then applyUpdate u x else x) })

/-- Embedding of the admin deleteMovie handler: 400 on a missing id, 404
when no movie has the id, otherwise remove that one Movie document and
answer 200 with the deleted document. The theaters collection is never
touched. -/
def deleteMovie (db : DB) (movieId : Option String) : HResult Movie × DB :=
  match movieId with
  | none => (.err 400 "Missing movie ID", db)
  | some mid =>
      match db.movies.find? (fun m => m.id = mid) with
      | none => (.err 404 "Movie not found", db)
      | some m =>
          (.ok 200 m, { db with movies := db.movies.eraseP (fun x => x.id = mid) })

/-- Consistency of the two denormalized showtime copies: every embedded
theater entry of every movie has a matching theater document whose
showtimes for that movie are exactly the embedded list. -/
def dbConsistent (db : DB) : Bool :=
  db.movies.all (fun m =>
    m.embeddedTheaters.all (fun e =>
      db.theaters.any (fun t =>
        t.name = e.name && t.location = e.location &&
        t.showtimes.filter (fun s => s.movie = m.id) = e.showtimes)))

/-- A concrete showtime for the consistency scenario. -/
def cxShowtime : Showtime :=
  { startTime := 1000, screen := "Screen 1", availableSeats := 100,
    blockedSeats := [], movie := "m1" }

/-- The theater copy embedded in the consistency-scenario movie. -/
def cxEmbedded : EmbeddedTheater :=
  { name := "PVR", location := "Mumbai", showtimes := [cxShowtime] }

/-- The movie of the consistency scenario, embedded in one theater. -/
def cxMovie : Movie :=
  { id := "m1", title := "T", titleEnglish := "T", description := "d",
    genre := "Drama", rating := 7, language := "en", releaseDate := 0,
    embeddedTheaters := [cxEmbedded] }

/-- The theater document of the consistency scenario. -/
def cxTheater : Theater :=
  { id := "t1", name := "PVR", location := "Mumbai",
    showtimes := [cxShowtime], movieTitles := ["T"], status := "Active" }

/-- A concrete consistent database: one movie embedded in one theater,
both holding the same single showtime. -/
def cxDb : DB :=
  { movies := [cxMovie], theaters := [cxTheater] }

/-- An update that rewrites only the movie's embedded copy. -/
def cxUpdate : MovieUpdate :=
  { title := none, genre := none, rating := none, language := none,
    releaseDate := none,
    embeddedTheaters := some [{ name := "PVR", location := "Mumbai", showtimes := [] }] }

/-- C2: consistency between a movie's `embeddedTheaters` showtime lists
and the theaters' own `showtimes` arrays is not preserved by every
operation: `updateMovie` rewrites only the Movie document, and a concrete
consistent database becomes inconsistent after an update that changes the
embedded copy. -/
theorem updateMovie_breaks_consistency :
    dbConsistent cxDb = true ∧
    (updateMovie cxDb "m1" cxUpdate).1.status = 200 ∧
    (updateMovie cxDb "m1" cxUpdate).2.theaters = cxDb.theaters ∧
    dbConsistent (updateMovie cxDb "m1" cxUpdate).2 = false := by decide

/-- C9: the admin deleteMovie handler leaves the theaters collection
untouched — in particular the deleted movie's title stays in
`movieTitles` and its showtimes stay in the theaters' `showtimes` arrays —
and on success removes exactly the one Movie document with the given id. -/
theorem deleteMovie_frame (db : DB) (movieId : Option String) :
    ((deleteMovie db movieId).2.theaters = db.theaters) ∧
    (∀ t, t ∈ db.theaters → t ∈ (deleteMovie db movieId).2.theaters) ∧
    (∀ mid m, movieId = some mid → (deleteMovie db movieId).1 = .ok 200 m →
      (deleteMovie db movieId).2.movies = db.movies.eraseP (fun x => x.id = mid)) := by
  refine ⟨?_, ?_, ?_⟩
  · cases movieId with
    | none => rfl
    | some mid =>
        simp only [deleteMovie]
        cases hf : db.movies.find? (fun m => m.id = mid) with
        | none => rfl
        | some m => rfl
  · intro t ht
    cases movieId with
    | none => exact ht
    | some mid =>
        simp only [deleteMovie]
        cases hf : db.movies.find? (fun m => m.id = mid) with
        | none => exact ht
        | some m => exact ht
  · intro mid m hmid hok
    subst hmid
    simp only [deleteMovie] at hok ⊢
    cases hf : db.movies.find? (fun x => x.id = mid) with
    | none =>
        rw [hf] at hok
        simp at hok
    | some m2 => rfl

/-- C9 witness: deleting the only movie empties the movies collection and
leaves the theater, its `movieTitles` entry, and its showtimes intact. -/
theorem deleteMovie_frame_witness :
    (deleteMovie cxDb (some "m1")).2.theaters = cxDb.theaters ∧
    (deleteMovie cxDb (some "m1")).2.movies = [] := by
  have h := deleteMovie_frame cxDb (some "m1")
  exact ⟨h.1, (h.2.2 "m1" cxMovie rfl (by decide)).trans (by decide)⟩

/-! Error handling of the public handlers (C7). -/

/-- Embedding of `mongoose.Types.ObjectId.isValid` for string inputs: a
24-character hex string. (Mongoose also accepts 12-byte buffers, which the
route parameter — a string — is not.) -/
def isValidObjectId (s : String) : Bool :=
  s.length = 24 &&
  s.data.all (fun c => c.isDigit || ('a' ≤ c && c ≤ 'f') || ('A' ≤ c && c ≤ 'F'))

/-- Embedding of the public GET /api/movies/:id handler: a syntactically
invalid id is rejected with 400 before the try block (and so before any
database access); inside the try block a database failure answers 500, a
missing movie 404, and a found movie 200. (The handler's ISO-date
reformatting of the response body is presentation only and not modelled;
the found movie document is returned as is.) -/
def getMovieById (id : String) (dbErr : Bool) (db : List Movie) : HResult Movie :=
  if ¬ isValidObjectId id then .err 400 "Invalid movie ID"
  else if dbErr then .err 500 "Server error while fetching movie"
  else
    match db.find? (fun m => m.id = id) with
    | none => .err 404 "Movie not found"
    | some m => .ok 200 m

/-- Embedding of the public POST /api/movies handler: `new Movie(req.body)`
followed by `save()`. The save outcome (mongoose validation or any
database error) is the explicit argument; every failure takes the catch
path, which answers 400. -/
def createMoviePublic (saveResult : Except String Movie) : HResult Movie :=
  match saveResult with
  | .ok m => .ok 201 m
  | .error _ => .err 400 "Failed to create movie"

/-- C7: each public handler catches its errors and answers a 4xx/5xx JSON
error, never an unhandled throw: `getMovies` answers 500 on a database
error; `getMovieById` answers 400 on a syntactically invalid id regardless
of the database (before any access), 404 for a well-formed id with no
match, 500 on a database error, and only ever 200/400/404/500;
`createMovie` answers 400 on any save failure (its validation failure)
and only ever 201/400. -/
theorem handlers_catch_errors :
    (∀ (q : MoviesQuery) (now : Int) (db : List Movie),
      getMovies q now true db = .err 500 "Server error while fetching movies") ∧
    (∀ (q : MoviesQuery) (now : Int) (dbErr : Bool) (db : List Movie),
      (getMovies q now dbErr db).status = 200 ∨ (getMovies q now dbErr db).status = 500) ∧
    (∀ (id : String) (dbErr : Bool) (db : List Movie), isValidObjectId id = false →
      getMovieById id dbErr db = .err 400 "Invalid movie ID") ∧
    (∀ (id : String) (db : List Movie), isValidObjectId id = true →
      db.find? (fun m => m.id = id) = none →
      getMovieById id false db = .err 404 "Movie not found") ∧
    (∀ (id : String) (db : List Movie), isValidObjectId id = true →
      getMovieById id true db = .err 500 "Server error while fetching movie") ∧
    (∀ (id : String) (dbErr : Bool) (db : List Movie),
      (getMovieById id dbErr db).status = 200 ∨ (getMovieById id dbErr db).status = 400 ∨
      (getMovieById id dbErr db).status = 404 ∨ (getMovieById id dbErr db).status = 500) ∧
    (∀ e : String, createMoviePublic (.error e) = .err 400 "Failed to create movie") ∧
    (∀ r : Except String Movie,
      (createMoviePublic r).status = 201 ∨ (createMoviePublic r).status = 400) := by
  refine ⟨fun q now db => rfl, ?_, ?_, ?_, ?_, ?_, fun e => rfl, ?_⟩
  · intro q now dbErr db
    cases dbErr with
    | true => exact Or.inr rfl
    | false =>
        simp only [getMovies, Bool.false_eq_true, if_false]
        split
        · exact Or.inr rfl
        · split
          · exact Or.inr rfl
          · exact Or.inl rfl
  · intro id dbErr db h
    simp only [getMovieById, h]
    rfl
  · intro id db h hfind
    simp only [getMovieById, h, hfind]
    rfl
  · intro id db h
    simp only [getMovieById, h]
    rfl
  · intro id dbErr db
    simp only [getMovieById]
    by_cases h : isValidObjectId id = true
    · rw [if_neg (by simp [h])]
      cases dbErr with
      | true => exact Or.inr (Or.inr (Or.inr rfl))
      | false =>
          rw [if_neg (by simp)]
          cases db.find? (fun m => m.id = id) with
          | none => exact Or.inr (Or.inr (Or.inl rfl))
          | some m => exact Or.inl rfl
    · rw [if_pos h]
      exact Or.inr (Or.inl rfl)
  · intro r
    cases r with
    | ok m => exact Or.inl rfl
    | error e => exact Or.inr rfl

/-- C7 witness: concrete instances — an invalid id is rejected with 400
even when the database is failing, a valid unknown id gives 404, a save
failure gives 400, and a database failure on the listing gives 500. -/
theorem handlers_catch_errors_witness :
    getMovieById "nothex" true [] = .err 400 "Invalid movie ID" ∧
    getMovieById "0123456789abcdef01234567" false [] = .err 404 "Movie not found" ∧
    getMovieById "0123456789abcdef01234567" true [] =
      .err 500 "Server error while fetching movie" ∧
    createMoviePublic (.error "validation failed") = .err 400 "Failed to create movie" ∧
    getMovies emptyQuery 0 true [] = .err 500 "Server error while fetching movies" := by
  have h := handlers_catch_errors
  exact ⟨h.2.2.1 "nothex" true [] (by decide),
    h.2.2.2.1 "0123456789abcdef01234567" [] (by decide) rfl,
    h.2.2.2.2.1 "0123456789abcdef01234567" [] (by decide),
    h.2.2.2.2.2.2.1 "validation failed",
    h.1 emptyQuery 0 []⟩

/-! The seeding script (seedMovies.js). -/

/-- The seat rows of the seed script's grid. -/
def seatRows : List Char := ['A', 'B', 'C', 'D']

/-- The seat columns of the seed script's grid. -/
def seatCols : List Nat := [1, 2, 3, 4, 5, 6]

/-- One seat label `row + col` (the template literal of the source;
columns are the single digits 1–6). -/
def seatLabel (row : Char) (col : Nat) : String :=
  String.mk [row, Char.ofNat (48 + col)]

/-- `allSeats`: the 24 labels of the grid, rows crossed with columns. -/
def allSeats : List String :=
  seatRows.flatMap (fun row => seatCols.map (fun col => seatLabel row col))

/-- Embedding of `generateBlockedSeats`. The source draws
`total = Math.floor(Math.random() * 10)` — an integer 0–9 — and takes the
first `total` elements of a copy of `allSeats` rearranged by `sort` with a
random comparator; the random integer and the resulting rearrangement (a
permutation of the array) are taken as parameters ranging over every
outcome. -/
def generateBlockedSeats (total : Nat) (shuffled : List String) : List String :=
  shuffled.take total

/-- C8: for every outcome of the random choices, the generated blocked-seat
list holds at most 9 pairwise-distinct labels, all drawn from the 24-seat
grid of rows A–D crossed with columns 1–6. -/
theorem generateBlockedSeats_valid (total : Nat) (shuffled : List String)
    (htotal : total < 10) (hperm : shuffled.Perm allSeats) :
    (generateBlockedSeats total shuffled).length ≤ 9 ∧
    (generateBlockedSeats total shuffled).Nodup ∧
    (∀ s ∈ generateBlockedSeats total shuffled, s ∈ allSeats) ∧
    allSeats.length = 24 := by
  refine ⟨?_, ?_, ?_, by decide⟩
  · calc (generateBlockedSeats total shuffled).length ≤ total :=
          List.length_take_le _ _
      _ ≤ 9 := by omega
  · exact (List.take_sublist total shuffled).nodup
      (hperm.nodup_iff.mpr (by decide))
  · intro s hs
    exact hperm.mem_iff.mp (List.take_subset total shuffled hs)

/-- C8 witness: the identity rearrangement with 3 blocked seats. -/
theorem generateBlockedSeats_valid_witness :
    (generateBlockedSeats 3 allSeats).length ≤ 9 ∧
    (generateBlockedSeats 3 allSeats).Nodup ∧
    (∀ s ∈ generateBlockedSeats 3 allSeats, s ∈ allSeats) ∧
    allSeats.length = 24 :=
  generateBlockedSeats_valid 3 allSeats (by decide) (List.Perm.refl allSeats)

/-- Outcome of one HTTP attempt inside `fetchWithRetry`: a successful
response carrying its data, or a thrown error carrying
`err.response?.status` (`none` when no HTTP response arrived, e.g. a
network error or timeout). -/
inductive FetchOutcome (α : Type) where
  | success : α → FetchOutcome α
  | failure : Option Nat → FetchOutcome α
deriving DecidableEq, Repr

/-- The loop body of `fetchWithRetry`, embedding
`for (let i = 0; i < retries; i++)` with the remaining iteration count as
structural fuel (`fuel = retries - i` at every call). Returns the result
(`none` covering both the `null` returns and the `undefined` value of a
loop that ends without returning), the number of attempts made, and the
list of back-off waits performed, in order. -/
def fetchLoop {α : Type} (oracle : Nat → FetchOutcome α) (retries delay : Nat) :
    Nat → Nat → Option α × Nat × List Nat
  | _, 0 => (none, 0, [])
  | i, fuel + 1 =>
      match oracle i with
      | .success d => (some d, i + 1, [])
      | .failure st =>
          if st = some 404 then (none, i + 1, [])
          else if i = retries - 1 then (none, i + 1, [])
          else
            let r := fetchLoop oracle retries delay (i + 1) fuel
            (r.1, r.2.1, delay * (i + 1) :: r.2.2)

/-- Embedding of the seed script's `fetchWithRetry(url, retries, delay)`.
The per-attempt outcomes are the oracle parameter; the defaults of the
source are `retries = 5`, `delay = 2000`. -/
def fetchWithRetry {α : Type} (oracle : Nat → FetchOutcome α)
    (retries delay : Nat) : Option α × Nat × List Nat :=
  fetchLoop oracle retries delay 0 retries

lemma fetchLoop_zero_fuel {α : Type} (oracle : Nat → FetchOutcome α)
    (retries delay i : Nat) :
    fetchLoop oracle retries delay i 0 = (none, 0, []) := rfl

/-- The loop makes at most `i + fuel` attempts counted from zero. -/
lemma fetchLoop_attempts_le {α : Type} (oracle : Nat → FetchOutcome α)
    (retries delay : Nat) :
    ∀ (fuel i : Nat), (fetchLoop oracle retries delay i fuel).2.1 ≤ i + fuel := by
  intro fuel
  induction fuel with
  | zero => intro i; simp [fetchLoop_zero_fuel]
  | succ f ih =>
      intro i
      rw [fetchLoop]
      split
      · simp
      · split
        · simp
        · split
          · simp
          · have h := ih (i + 1)
            simp only []
            omega

/-- With at least one remaining iteration the loop makes at least one
more attempt. -/
lemma fetchLoop_attempts_ge {α : Type} (oracle : Nat → FetchOutcome α)
    (retries delay : Nat) :
    ∀ (fuel i : Nat), 1 ≤ fuel → i + fuel = retries →
      i + 1 ≤ (fetchLoop oracle retries delay i fuel).2.1 := by
  intro fuel
  induction fuel with
  | zero => intro i h _; omega
  | succ f ih =>
      intro i _ hinv
      rw [fetchLoop]
      split
      · simp
      · split
        · simp
        · split
          · simp
          · rename_i hlast
            cases f with
            | zero => omega
            | succ f2 =>
                have h := ih (i + 1) (by omega) (by omega)
                simp only []
                omega

/-- The waits performed are exactly `delay * (i + 1), …, delay * (a - 1)`
where `a` is the number of attempts made — linear back-off between every
two consecutive attempts. Requires the loop invariant `i + fuel = retries`
of the embedding. -/
lemma fetchLoop_waits {α : Type} (oracle : Nat → FetchOutcome α)
    (retries delay : Nat) :
    ∀ (fuel i : Nat), i + fuel = retries →
      (fetchLoop oracle retries delay i fuel).2.2 =
        (List.range' (i + 1)
          ((fetchLoop oracle retries delay i fuel).2.1 - 1 - i)).map
          (fun k => delay * k) := by
  intro fuel
  induction fuel with
  | zero =>
      intro i hinv
      simp [fetchLoop_zero_fuel]
  | succ f ih =>
      intro i hinv
      rw [fetchLoop]
      split
      · simp
      · split
        · simp
        · split
          · simp
          · rename_i hlast
            have hf : 1 ≤ f := by omega
            have hge := fetchLoop_attempts_ge oracle retries delay f (i + 1) hf (by omega)
            have hw := ih (i + 1) (by omega)
            simp only []
            rw [hw]
            rw [show (fetchLoop oracle retries delay (i + 1) f).2.1 - 1 - i =
              ((fetchLoop oracle retries delay (i + 1) f).2.1 - 1 - (i + 1)) + 1
              from by omega]
            rw [List.range'_succ]
            rfl

/-- If every attempt before `j` fails without a 404 and attempt `j`
succeeds, the loop returns attempt `j`'s data after `j + 1` attempts, with
one back-off wait after each failed attempt. -/
lemma fetchLoop_first_success {α : Type} (oracle : Nat → FetchOutcome α)
    (retries delay : Nat) (j : Nat) (data : α)
    (hj : oracle j = .success data)
    (hprev : ∀ k, k < j → ∃ st, oracle k = .failure st ∧ st ≠ some 404) :
    ∀ (fuel i : Nat), i + fuel = retries → i ≤ j → j < retries →
      fetchLoop oracle retries delay i fuel =
        (some data, j + 1, (List.range' (i + 1) (j - i)).map (fun k => delay * k)) := by
  intro fuel
  induction fuel with
  | zero =>
      intro i hinv hij hjr
      exact ((by omega : False)).elim
  | succ f ih =>
      intro i hinv hij hjr
      rw [fetchLoop]
      split
      · rename_i d ho
        have hji : i = j := by
          by_contra hne2
          obtain ⟨st, hk, _⟩ := hprev i (by omega)
          rw [ho] at hk
          exact FetchOutcome.noConfusion hk
        subst hji
        rw [ho] at hj
        injection hj with hd
        subst hd
        simp
      · rename_i st ho
        have hilt : i < j := by
          rcases Nat.lt_or_ge i j with h | h
          · exact h
          · have hji : i = j := by omega
            rw [hji, hj] at ho
            exact FetchOutcome.noConfusion ho
        obtain ⟨st2, hk, hne⟩ := hprev i hilt
        rw [ho] at hk
        injection hk with hst
        subst hst
        rw [if_neg hne]
        rw [if_neg (show ¬ i = retries - 1 from by omega)]
        have hrec := ih (i + 1) (by omega) (by omega) hjr
        simp only []
        rw [hrec]
        rw [show j - i = (j - (i + 1)) + 1 from by omega]
        rw [List.range'_succ]
        rfl

/-- If every attempt before `j` fails without a 404 and attempt `j` gets
an HTTP 404 response, the loop returns `null` right after attempt `j`
without further retries. -/
lemma fetchLoop_first_404 {α : Type} (oracle : Nat → FetchOutcome α)
    (retries delay : Nat) (j : Nat)
    (hj : oracle j = .failure (some 404))
    (hprev : ∀ k, k < j → ∃ st, oracle k = .failure st ∧ st ≠ some 404) :
    ∀ (fuel i : Nat), i + fuel = retries → i ≤ j → j < retries →
      fetchLoop oracle retries delay i fuel =
        (none, j + 1, (List.range' (i + 1) (j - i)).map (fun k => delay * k)) := by
  intro fuel
  induction fuel with
  | zero =>
      intro i hinv hij hjr
      exact ((by omega : False)).elim
  | succ f ih =>
      intro i hinv hij hjr
      rw [fetchLoop]
      split
      · rename_i d ho
        have hilt : i < j := by
          rcases Nat.lt_or_ge i j with h | h
          · exact h
          · have hji : i = j := by omega
            rw [hji, hj] at ho
            exact FetchOutcome.noConfusion ho
        obtain ⟨st, hk, _⟩ := hprev i hilt
        rw [ho] at hk
        exact FetchOutcome.noConfusion hk
      · rename_i st ho
        by_cases hji : i = j
        · subst hji
          rw [ho] at hj
          injection hj with hst
          subst hst
          rw [if_pos rfl]
          simp
        · have hilt : i < j := by omega
          obtain ⟨st2, hk, hne⟩ := hprev i hilt
          rw [ho] at hk
          injection hk with hst
          subst hst
          rw [if_neg hne]
          rw [if_neg (show ¬ i = retries - 1 from by omega)]
          have hrec := ih (i + 1) (by omega) (by omega) hjr
          simp only []
          rw [hrec]
          rw [show j - i = (j - (i + 1)) + 1 from by omega]
          rw [List.range'_succ]
          rfl

/-- If every attempt fails without a 404, the loop returns `null` after
making all `retries` attempts. -/
lemma fetchLoop_all_fail {α : Type} (oracle : Nat → FetchOutcome α)
    (retries delay : Nat)
    (hall : ∀ k, k < retries → ∃ st, oracle k = .failure st ∧ st ≠ some 404) :
    ∀ (fuel i : Nat), i + fuel = retries →
      (fetchLoop oracle retries delay i fuel).1 = none ∧
      (1 ≤ fuel → (fetchLoop oracle retries delay i fuel).2.1 = retries) := by
  intro fuel
  induction fuel with
  | zero =>
      intro i hinv
      exact ⟨rfl, fun h => ((by omega : False)).elim⟩
  | succ f ih =>
      intro i hinv
      rw [fetchLoop]
      obtain ⟨st0, hk, hne⟩ := hall i (by omega)
      split
      · rename_i d ho
        rw [ho] at hk
        exact FetchOutcome.noConfusion hk
      · rename_i st ho
        rw [ho] at hk
        injection hk with hst
        subst hst
        rw [if_neg hne]
        by_cases hlast : i = retries - 1
        · rw [if_pos hlast]
          refine ⟨rfl, fun _ => ?_⟩
          show i + 1 = retries
          omega
        · rw [if_neg hlast]
          have hrec := ih (i + 1) (by omega)
          simp only []
          exact ⟨hrec.1, fun _ => hrec.2 (by omega)⟩

/-- C4: `fetchWithRetry(url, retries, delay)` makes at most `retries`
attempts; it waits `delay * (attempt_index + 1)` milliseconds between
consecutive attempts (linear back-off — the wait list is always
`[delay*1, …, delay*(attempts-1)]`); it returns the data of the first
successful attempt; it returns `null` immediately on an HTTP 404 response
without further retries; and it returns `null` when every attempt fails.
(The `undefined` of a zero-retry call is identified with `null`: callers
only test truthiness.) -/
theorem fetchWithRetry_behavior {α : Type} (oracle : Nat → FetchOutcome α)
    (retries delay : Nat) :
    ((fetchWithRetry oracle retries delay).2.1 ≤ retries) ∧
    ((fetchWithRetry oracle retries delay).2.2 =
      (List.range' 1 ((fetchWithRetry oracle retries delay).2.1 - 1)).map
        (fun k => delay * k)) ∧
    (∀ (j : Nat) (data : α), j < retries → oracle j = .success data →
      (∀ k, k < j → ∃ st, oracle k = .failure st ∧ st ≠ some 404) →
      fetchWithRetry oracle retries delay =
        (some data, j + 1, (List.range' 1 j).map (fun k => delay * k))) ∧
    (∀ j : Nat, j < retries → oracle j = .failure (some 404) →
      (∀ k, k < j → ∃ st, oracle k = .failure st ∧ st ≠ some 404) →
      fetchWithRetry oracle retries delay =
        (none, j + 1, (List.range' 1 j).map (fun k => delay * k))) ∧
    ((∀ k, k < retries → ∃ st, oracle k = .failure st ∧ st ≠ some 404) →
      (fetchWithRetry oracle retries delay).1 = none) := by
  refine ⟨?_, ?_, ?_, ?_, ?_⟩
  · have h := fetchLoop_attempts_le oracle retries delay retries 0
    simpa [fetchWithRetry] using h
  · have h := fetchLoop_waits oracle retries delay retries 0 (by omega)
    simpa [fetchWithRetry] using h
  · intro j data hjr hj hprev
    have h := fetchLoop_first_success oracle retries delay j data hj hprev retries 0
      (by omega) (by omega) hjr
    simpa [fetchWithRetry] using h
  · intro j hjr hj hprev
    have h := fetchLoop_first_404 oracle retries delay j hj hprev retries 0
      (by omega) (by omega) hjr
    simpa [fetchWithRetry] using h
  · intro hall
    exact (fetchLoop_all_fail oracle retries delay hall retries 0 (by omega)).1

/-- A concrete attempt oracle: a network failure, then success. -/
def retryOracle : Nat → FetchOutcome Nat :=
  fun i => if i = 0 then .failure none else .success 7

/-- C4 witness: one failed attempt, one back-off wait of `delay * 1`, then
the second attempt's data. -/
theorem fetchWithRetry_behavior_witness :
    fetchWithRetry retryOracle 3 2000 = (some 7, 2, [2000]) := by
  have h := (fetchWithRetry_behavior retryOracle 3 2000).2.2.1 1 7 (by decide) rfl
    (by
      intro k hk
      have hk0 : k = 0 := by omega
      subst hk0
      exact ⟨none, rfl, by decide⟩)
  exact h.trans (by decide)

/-! TMDB search with language fallback (tmdbController.js and
seedMovies.js). -/

/-- The two-letter language list of the TMDB search handler, in order. -/
def supportedLanguages : List String :=
  ["en", "hi", "ta", "te", "ml", "mr", "kn", "bn", "gu", "pa", "ur"]

/-- The TMDB locale list the seed script searches, in order. -/
def supportedTmdbLanguages : List String :=
  ["en-US", "hi-IN", "mr-IN", "ta-IN", "te-IN", "ml-IN", "kn-IN", "bn-IN",
   "gu-IN", "pa-IN", "ur-PK"]

/-- The backend-supported two-letter codes checked by the seed script. -/
def backendSupportedLanguages : List String :=
  ["en", "hi", "ta", "te", "ml", "kn", "bn", "mr", "gu", "pa", "ur"]

/-- Embedding of `lang.split('-')[0]`: the part before the first dash. -/
def langCode (lang : String) : String :=
  String.mk (lang.data.takeWhile (fun c => c ≠ '-'))

/-- Embedding of `rawQuery.split(':')[0]`: the part before the first
colon. -/
def beforeColon (s : String) : String :=
  String.mk (s.data.takeWhile (fun c => c ≠ ':'))

/-- The language loop of the search handler: try each language in order,
stop at the first whose request returns HTTP 200 with a non-empty result
list. A per-language oracle value of `none` is a thrown request (network
error, timeout or non-2xx status), which the loop catches and skips. -/
def searchLoop {α : Type} (oracle : String → Option (List α)) :
    List String → Option (String × List α)
  | [] => none
  | lang :: rest =>
      match oracle lang with
      | some rs => if rs.isEmpty then searchLoop oracle rest else some (lang, rs)
      | none => searchLoop oracle rest

/-- Embedding of the `searchTmdbMovie` handler: 400 on a missing or blank
query (after cutting at the first colon and trimming), 500 without an API
key, 404 when no language yields a result, otherwise 200 with the first
hit's result list. -/
def searchTmdbMovie {α : Type} (rawQuery : Option String) (hasKey : Bool)
    (oracle : String → Option (List α)) : HResult (List α) :=
  match rawQuery with
  | none => .err 400 "Missing query parameter"
  | some raw =>
      if trimStr (beforeColon raw) = "" then .err 400 "Missing query parameter"
      else if ¬ hasKey then .err 500 "TMDB API key not configured"
      else
        match searchLoop oracle supportedLanguages with
        | none => .err 404 "Movie not found in TMDB"
        | some (_, rs) => .ok 200 rs

/-- The language loop of the seed script's `searchMovieInLanguages`: the
first language whose fetch returns data with at least one result and
whose two-letter code is backend-supported wins, yielding the first result
and the code; a language with a result but an unsupported code is
skipped. -/
def seedSearchLoop {α : Type} (oracle : String → Option (List α)) :
    List String → Option (α × String)
  | [] => none
  | lang :: rest =>
      match oracle lang with
      | some (r :: _) =>
          if backendSupportedLanguages.contains (langCode lang) then
            some (r, langCode lang)
          else seedSearchLoop oracle rest
      | _ => seedSearchLoop oracle rest

/-- Embedding of the seed script's `searchMovieInLanguages`. -/
def searchMovieInLanguages {α : Type} (oracle : String → Option (List α)) :
    Option (α × String) :=
  seedSearchLoop oracle supportedTmdbLanguages

lemma searchLoop_hit {α : Type} (oracle : String → Option (List α))
    (pre suf : List String) (lang : String) (rs : List α)
    (hpre : ∀ l ∈ pre, oracle l = none ∨ oracle l = some [])
    (ho : oracle lang = some rs) (hne : rs ≠ []) :
    searchLoop oracle (pre ++ lang :: suf) = some (lang, rs) := by
  induction pre with
  | nil =>
      cases rs with
      | nil => exact absurd rfl hne
      | cons a as => simp [searchLoop, ho]
  | cons p ps ih =>
      rcases hpre p (by simp) with h | h
      · simp only [List.cons_append, searchLoop, h]
        exact ih (fun l hl => hpre l (List.mem_cons_of_mem _ hl))
      · simp only [List.cons_append, searchLoop, h, List.isEmpty_nil, if_true]
        exact ih (fun l hl => hpre l (List.mem_cons_of_mem _ hl))

lemma searchLoop_miss {α : Type} (oracle : String → Option (List α)) :
    ∀ langs : List String, (∀ l ∈ langs, oracle l = none ∨ oracle l = some []) →
      searchLoop oracle langs = none := by
  intro langs
  induction langs with
  | nil => intro _; rfl
  | cons a as ih =>
      intro h
      rcases h a (by simp) with h0 | h0
      · simp only [searchLoop, h0]
        exact ih (fun l hl => h l (List.mem_cons_of_mem _ hl))
      · simp only [searchLoop, h0, List.isEmpty_nil, if_true]
        exact ih (fun l hl => h l (List.mem_cons_of_mem _ hl))

lemma seedSearchLoop_hit {α : Type} (oracle : String → Option (List α))
    (pre suf : List String) (lang : String) (r : α) (rest : List α)
    (hpre : ∀ l ∈ pre, oracle l = none ∨ oracle l = some [])
    (ho : oracle lang = some (r :: rest))
    (hsup : backendSupportedLanguages.contains (langCode lang) = true) :
    seedSearchLoop oracle (pre ++ lang :: suf) = some (r, langCode lang) := by
  induction pre with
  | nil =>
      simp only [List.nil_append, seedSearchLoop, ho]
      rw [if_pos hsup]
  | cons p ps ih =>
      rcases hpre p (by simp) with h | h
      · simp only [List.cons_append, seedSearchLoop, h]
        exact ih (fun l hl => hpre l (List.mem_cons_of_mem _ hl))
      · simp only [List.cons_append, seedSearchLoop, h]
        exact ih (fun l hl => hpre l (List.mem_cons_of_mem _ hl))

lemma seedSearchLoop_miss {α : Type} (oracle : String → Option (List α)) :
    ∀ langs : List String, (∀ l ∈ langs, oracle l = none ∨ oracle l = some []) →
      seedSearchLoop oracle langs = none := by
  intro langs
  induction langs with
  | nil => intro _; rfl
  | cons a as ih =>
      intro h
      rcases h a (by simp) with h0 | h0
      · simp only [seedSearchLoop, h0]
        exact ih (fun l hl => h l (List.mem_cons_of_mem _ hl))
      · simp only [seedSearchLoop, h0]
        exact ih (fun l hl => h l (List.mem_cons_of_mem _ hl))

/-- C5: both TMDB searches use language fallback over their fixed lists.
The search handler returns 200 with the result list of the first language
whose request yields at least one result, and 404 'Movie not found in
TMDB' when none does; the seed script's variant returns the first result
of the first language with a non-empty result list whose two-letter code
is backend-supported, and `null` when no language yields a result. -/
theorem tmdb_language_fallback {α : Type} (oracle : String → Option (List α))
    (raw : String) (hq : trimStr (beforeColon raw) ≠ "") :
    (∀ (pre suf : List String) (lang : String) (rs : List α),
      supportedLanguages = pre ++ lang :: suf →
      (∀ l ∈ pre, oracle l = none ∨ oracle l = some []) →
      oracle lang = some rs → rs ≠ [] →
      searchTmdbMovie (some raw) true oracle = .ok 200 rs) ∧
    ((∀ l ∈ supportedLanguages, oracle l = none ∨ oracle l = some []) →
      searchTmdbMovie (some raw) true oracle = .err 404 "Movie not found in TMDB") ∧
    (∀ (pre suf : List String) (lang : String) (r : α) (rest : List α),
      supportedTmdbLanguages = pre ++ lang :: suf →
      (∀ l ∈ pre, oracle l = none ∨ oracle l = some []) →
      oracle lang = some (r :: rest) →
      backendSupportedLanguages.contains (langCode lang) = true →
      searchMovieInLanguages oracle = some (r, langCode lang)) ∧
    ((∀ l ∈ supportedTmdbLanguages, oracle l = none ∨ oracle l = some []) →
      searchMovieInLanguages oracle = none) := by
  refine ⟨?_, ?_, ?_, ?_⟩
  · intro pre suf lang rs hsplit hpre ho hne
    simp only [searchTmdbMovie]
    rw [if_neg hq, if_neg (by simp)]
    rw [hsplit, searchLoop_hit oracle pre suf lang rs hpre ho hne]
  · intro hall
    simp only [searchTmdbMovie]
    rw [if_neg hq, if_neg (by simp)]
    rw [searchLoop_miss oracle supportedLanguages hall]
  · intro pre suf lang r rest hsplit hpre ho hsup
    rw [searchMovieInLanguages, hsplit]
    exact seedSearchLoop_hit oracle pre suf lang r rest hpre ho hsup
  · intro hall
    rw [searchMovieInLanguages]
    exact seedSearchLoop_miss oracle supportedTmdbLanguages hall

/-- A concrete per-language response oracle: English yields an empty
result list (handler) or an error (seed locale), Hindi yields results. -/
def tmdbOracle : String → Option (List Nat) :=
  fun l =>
    if l = "en" then some [] else
    if l = "hi" then some [1, 2] else
    if l = "en-US" then none else
    if l = "hi-IN" then some [5] else none

/-- C5 witness: the handler falls through English (empty results) to
Hindi; the seed variant falls through en-US (failed fetch) to hi-IN and
returns its first result with the two-letter code. -/
theorem tmdb_language_fallback_witness :
    searchTmdbMovie (some "Jawan") true tmdbOracle = .ok 200 [1, 2] ∧
    searchMovieInLanguages tmdbOracle = some (5, "hi") := by
  have h := tmdb_language_fallback tmdbOracle "Jawan" (by decide)
  refine ⟨?_, ?_⟩
  · exact h.1 ["en"] ["ta", "te", "ml", "mr", "kn", "bn", "gu", "pa", "ur"]
      "hi" [1, 2] rfl
      (by
        intro l hl
        simp at hl
        subst hl
        exact Or.inr rfl) rfl (by decide)
  · have h2 := h.2.2.1 ["en-US"]
      ["mr-IN", "ta-IN", "te-IN", "ml-IN", "kn-IN", "bn-IN", "gu-IN", "pa-IN", "ur-PK"]
      "hi-IN" 5 [] rfl
      (by
        intro l hl
        simp at hl
        subst hl
        exact Or.inl rfl) rfl (by decide)
    exact h2.trans (by decide)

/-! The seed script's movie-to-theater linking (seedMovies.js lines
177-236). -/

/-- The fixed 11-theater list of the seed script (name, location). -/
def theaterList : List (String × String) :=
  [("PVR Phoenix Kurla", "Mumbai"),
   ("INOX R City", "Ghatkopar, Mumbai"),
   ("NY Cinemas Mulund", "Mulund, Mumbai"),
   ("R Mall Mulund", "Mulund, Mumbai"),
   ("Cinépolis - Korum Mall", "Thane"),
   ("INOX - Viviana Mall", "Thane"),
   ("PVR - Lake City Mall", "Thane"),
   ("INOX - Raghuleela Mall", "Navi Mumbai"),
   ("Cinépolis - Nexus Seawoods Mall", "Navi Mumbai"),
   ("Miraj Cinemas - Panvel", "Navi Mumbai"),
   ("PVR - Orion Mall", "Navi Mumbai")]

/-- The four show times `['10:00', '13:30', '17:00', '21:30']` of the seed
script, as millisecond offsets from the seeding day's midnight (the
`${dateStr}T${time}:00` timestamps, server in UTC). -/
def seedTimes : List Int := [36000000, 48600000, 61200000, 77400000]

/-- Embedding of `ensureTheater(name, location)`: `findOneAndUpdate` on
the name with `$set: { location, showtimes: [], movieTitles: [], status:
'Active' }` and `upsert: true, new: true` — update the theater with that
name (names are unique in the seed data), or insert a fresh one (its new
ObjectId modelled by the unique name). Returns the database and the
updated document. Note the `$set` empties the theater's `showtimes` and
`movieTitles` on every call. -/
def ensureTheater (db : DB) (name location : String) : DB × Theater :=
  match db.theaters.find? (fun t => t.name = name) with
  | some t =>
      let t2 :=
        { t with
          location := location, showtimes := [], movieTitles := [],
          status := "Active" }
      ({ db with theaters :=
          db.theaters.map (fun x => if x.name = name then t2 else x) }, t2)
  | none =>
      let t2 : Theater :=
        { id := name, name := name, location := location, showtimes := [],
          movieTitles := [], status := "Active" }
      ({ db with theaters := db.theaters ++ [t2] }, t2)

/-- Embedding of the seed's `Theater.updateOne({_id}, { $push: { showtimes:
{ $each: sts } }, $addToSet: { movieTitles: title } })`. -/
def pushShowtimes (db : DB) (tid : String) (sts : List Showtime)
    (title : String) : DB :=
  { db with theaters := db.theaters.map (fun t =>
      if t.id = tid then
        { t with showtimes := t.showtimes ++ sts,
                 movieTitles := if t.movieTitles.contains title then t.movieTitles
                                else t.movieTitles ++ [title] }
      else t) }

/-- The four showtimes generated for one (movie, theater) pair on the
seeding day — `Screen 1`, 100 available seats, a reference to the movie —
with the random blocked-seat outcomes supplied by the oracle parameter. -/
def mkSeedShowtimes (blocked : String → String → Nat → List String)
    (day0 : Int) (movieId theaterName : String) : List Showtime :=
  seedTimes.enum.map (fun p =>
    { startTime := day0 + p.2, screen := "Screen 1", availableSeats := 100,
      blockedSeats := blocked movieId theaterName p.1, movie := movieId })

/-- The per-movie linking pass of `seedMovies`: for each theater of the
fixed list, `ensureTheater` (whose `$set` resets the theater's showtimes
and movieTitles), push the four generated showtimes and the movie title,
and collect the embedded copy (the same showtime list); finally store the
embedded copies in the movie document. -/
def seedLinkMovie (blocked : String → String → Nat → List String)
    (day0 : Int) (db : DB) (m : Movie) : DB :=
  let step := theaterList.foldl (fun (acc : DB × List EmbeddedTheater) nl =>
    let r := ensureTheater acc.1 nl.1 nl.2
    let sts := mkSeedShowtimes blocked day0 m.id r.2.name
    let db2 := pushShowtimes r.1 r.2.id sts m.title
    let emb : EmbeddedTheater :=
      { name := r.2.name, location := r.2.location, showtimes := sts }
    (db2, acc.2 ++ [emb])) (db, [])
  { step.1 with movies := step.1.movies.map (fun x =>
      if x.id = m.id then { x with embeddedTheaters := step.2 } else x) }

/-- The linking loop of `seedMovies` over all inserted movies. -/
def seedLinkAll (blocked : String → String → Nat → List String)
    (day0 : Int) (db : DB) (ms : List Movie) : DB :=
  ms.foldl (seedLinkMovie blocked day0) db

/-- First seeded movie of the two-movie scenario. -/
def seedM1 : Movie := mkMovie "s1" "Alpha" 0

/-- Second seeded movie of the two-movie scenario. -/
def seedM2 : Movie := mkMovie "s2" "Beta" 0

/-- The database after seed-linking two movies over the 11 theaters, with
every random blocked-seat draw coming out empty. -/
def seededDb : DB :=
  seedLinkAll (fun _ _ _ => []) 0
    { movies := [seedM1, seedM2], theaters := [] } [seedM1, seedM2]

/-- C6 (code bug evidence): after seed-linking two movies, every theater
holds only the LAST movie's four showtimes and only its title — the first
movie's pushes were erased by the `$set` inside `ensureTheater`, which
runs again inside the per-movie loop — while each movie's
`embeddedTheaters` still records, per theater, the four showtimes (10:00,
13:30, 17:00, 21:30, Screen 1, 100 seats) that were pushed for that
movie. -/
theorem seed_link_reset_bug :
    (seededDb.theaters.length = 11) ∧
    (seededDb.theaters.all (fun t =>
      t.showtimes.length = 4 &&
      t.showtimes.all (fun s => s.movie = "s2") &&
      t.movieTitles = ["Beta"] &&
      (t.showtimes.filter (fun s => s.movie = "s1")).length = 0 &&
      t.showtimes.map (fun s => s.startTime) =
        [36000000, 48600000, 61200000, 77400000] &&
      t.showtimes.all (fun s => s.screen = "Screen 1" && s.availableSeats = 100))
      = true) ∧
    (seededDb.movies.all (fun m =>
      m.embeddedTheaters.length = 11 &&
      m.embeddedTheaters.all (fun e =>
        e.showtimes.length = 4 && e.showtimes.all (fun s => s.movie = m.id)))
      = true) := by decide

end ShowSnap
